import Mathlib

/-!
Verification development for the TimeBank repository.

The repository ships a single browser client, `frontend/src/App.js`.  The
definitions below are a shallow embedding of that file: the task records the
client manipulates, the JavaScript value semantics the relevant expressions
rely on (truthiness, `parseInt`, `||`, object spread / `delete`, `split` /
`trim` / `filter(Boolean)`), and the handler functions of the components
`TaskDetailPage`, `TaskCard`, `BrowseTasks`, `CreateTask` and
`ProfileSettings`.

The backend (Task Store, Ledger, Lifecycle Engine) is not part of the
repository; where a property concerns it, the corresponding operation is
modelled from the specification text and marked as such in its doc comment.
-/

/-! ## JavaScript value semantics -/

/-- Truthiness of an optional string field of a JSON record: `undefined` /
`null` (here `none`) and the empty string are falsy; every other string is
truthy.  Used by `!task.before_photo`-style tests in `App.js`. -/
def jsTruthyOptStr : Option String → Bool
  | none => false
  | some s => s ≠ ""

/-- Result of the JavaScript `parseInt` applied to a form-field string: either
`NaN` or an integer. -/
inductive JsNum where
  | nan : JsNum
  | int (n : Int) : JsNum
deriving DecidableEq, Repr

/-- Truthiness test on a `JsNum`: `NaN` and `0` are falsy. -/
def jsFalsyNum : JsNum → Bool
  | .nan => true
  | .int n => n == 0

/-- JavaScript `a || b` on numbers: yields `b` when `a` is falsy, else `a`. -/
def jsOrNum (a b : JsNum) : JsNum :=
  if jsFalsyNum a then b else a

/-- Numeric value of a list of decimal digit characters, most significant
first. -/
def digitsVal (ds : List Char) : Nat :=
  ds.foldl (fun a c => a * 10 + (c.toNat - 48)) 0

/-- JavaScript `parseInt(s)` on the strings a numeric form field can hold:
skip leading whitespace, read an optional sign, then the longest prefix of
decimal digits; `NaN` when that prefix is empty.  (The hexadecimal `0x` form
of `parseInt` is not modelled: a `type="number"` input never yields it.) -/
def jsParseInt (s : String) : JsNum :=
  let l := s.data.dropWhile Char.isWhitespace
  let signed : Bool × List Char :=
    match l with
    | '-' :: r => (true, r)
    | '+' :: r => (false, r)
    | _ => (false, l)
  let ds := signed.2.takeWhile Char.isDigit
  if ds.isEmpty then .nan
  else
    let v : Int := Int.ofNat (digitsVal ds)
    .int (if signed.1 then -v else v)

/-- JavaScript `String.prototype.trim`: drop whitespace from both ends.
(Whitespace is modelled by `Char.isWhitespace`; the Unicode space classes
`trim` additionally strips do not occur in the claims.) -/
def jsTrim (s : String) : String :=
  ⟨((s.data.dropWhile Char.isWhitespace).reverse.dropWhile Char.isWhitespace).reverse⟩

/-! ## JavaScript objects as ordered key/value lists

A plain object literal is a list of string bindings; `{ a, ...b }` appends
the bindings of `b` after those of `a`, and property lookup takes the LAST
binding of a key, so spread overrides earlier keys, exactly as in
`const params = { status: 'open', ...filters }`. -/

/-- Property lookup on an object: the value of the last binding of `k`. -/
def objGet (o : List (String × String)) (k : String) : Option String :=
  (o.reverse.find? (fun p => p.1 == k)).map (fun p => p.2)

/-- JavaScript `delete o[k]`: remove every binding of `k`. -/
def objDelete (o : List (String × String)) (k : String) : List (String × String) :=
  o.filter (fun p => p.1 != k)

/-! ## Client-side task records -/

/-- Fields of a task JSON record that the client components read.  Ids are the
opaque strings the backend issues; `status` and `task_type` are the literal
strings the client compares against. -/
structure ClientTask where
  id : String
  created_by : String
  assigned_to : Option String
  title : String
  status : String
  task_type : String
  before_photo : Option String
  after_photo : Option String
deriving DecidableEq, Repr

/-- HTTP requests the client can issue for the flows under study. -/
inductive HttpRequest where
  | getTasks (params : List (String × String)) : HttpRequest
  | getTasksMy : HttpRequest
  | getTaskById (id : String) : HttpRequest
  | postAssign (taskId : String) : HttpRequest
  | postValidate (taskId : String) : HttpRequest
deriving DecidableEq, Repr

/-! ## TaskDetailPage (App.js 401-461) -/

/-- Outcome of `handleValidation` (App.js 436-445) before the network reply:
either the early-return warning toast, with no request issued, or the
validate request. -/
inductive ValidationAttempt where
  | warnMissing : ValidationAttempt
  | request (r : HttpRequest) : ValidationAttempt
deriving DecidableEq, Repr

/-- Embedding of `handleValidation` (App.js 436-445): the guard
`if (!task.before_photo || !task.after_photo)` warns and returns before any
call; otherwise `POST /tasks/{taskId}/validate` is issued. -/
def handleValidation (task : ClientTask) (taskId : String) : ValidationAttempt :=
  if !jsTruthyOptStr task.before_photo || !jsTruthyOptStr task.after_photo then
    .warnMissing
  else
    .request (.postValidate taskId)

/-- Embedding of the Complete Task button's `disabled` expression
(App.js 457): `disabled={!task.before_photo || !task.after_photo}`. -/
def completeTaskDisabled (task : ClientTask) : Bool :=
  !jsTruthyOptStr task.before_photo || !jsTruthyOptStr task.after_photo

/-- Requests `fetchTask` (App.js 407-419) issues: a single
`GET /api/tasks/my`, whatever the route's task id is. -/
def fetchTaskRequests (_taskId : String) : List HttpRequest :=
  [.getTasksMy]

/-- Result of `fetchTask` after the list reply arrives: show the selected
task, or toast an error and navigate away. -/
inductive FetchOutcome where
  | found (t : ClientTask) : FetchOutcome
  | notFound (navigateTo : String) : FetchOutcome
deriving DecidableEq, Repr

/-- Embedding of the reply handling in `fetchTask` (App.js 413-416):
`data.find(t => t.id === taskId)`, then either `setTask` or the
"Task not found" toast plus `navigate('/dashboard/my-tasks')`. -/
def fetchTaskOutcome (data : List ClientTask) (taskId : String) : FetchOutcome :=
  match data.find? (fun t => t.id == taskId) with
  | some t => .found t
  | none => .notFound "/dashboard/my-tasks"

/-! ## TaskCard on the explore page (App.js 498-512) -/

/-- Embedding of the accept-action guard in `TaskCard` (App.js 509): the
Accept Task button is rendered exactly when `task.status === 'open'`.
`TaskCard` receives only `task` and `onAssign`, so no other field can enter
the decision. -/
def acceptButtonShown (task : ClientTask) : Bool :=
  task.status == "open"

/-- Embedding of `handleAssign` (App.js 500-503): clicking Accept Task posts
`/tasks/{task.id}/assign`, unconditionally. -/
def handleAssignRequest (task : ClientTask) : HttpRequest :=
  .postAssign task.id

/-! ## loadTasks and BrowseTasks (App.js 187-196, 285-307) -/

/-- Embedding of the query-parameter construction in `loadTasks`
(App.js 190-191): `const params = { status: 'open', ...filters };` followed
by `if (filters.taskType === 'all') delete params.taskType;`. -/
def loadTasksParams (filters : List (String × String)) : List (String × String) :=
  let params := [("status", "open")] ++ filters
  if objGet filters "taskType" == some "all" then objDelete params "taskType"
  else params

/-- Filter object the debounced effect of `BrowseTasks` passes to `loadTasks`
(App.js 290): `{ title: filters.searchTerm, task_type: filters.taskType }`. -/
def browseEffectFilters (searchTerm taskTypeSel : String) : List (String × String) :=
  [("title", searchTerm), ("task_type", taskTypeSel)]

/-- Filter object the `onAssign` refresh of `BrowseTasks` passes to
`loadTasks` (App.js 303): the raw state `{ searchTerm, taskType }`. -/
def browseAssignRefreshFilters (searchTerm taskTypeSel : String) : List (String × String) :=
  [("searchTerm", searchTerm), ("taskType", taskTypeSel)]

/-! ## CreateTask and ProfileSettings form handling (App.js 327-365, 367-399) -/

/-- Splitting of a character list at every occurrence of `sep`, keeping empty
components, as JavaScript `split` with a one-character separator does
(`''.split(',')` is `['']`, `','.split(',')` is `['', '']`). -/
def splitAtSep (sep : Char) : List Char → List (List Char)
  | [] => [[]]
  | c :: cs =>
    match splitAtSep sep cs with
    | [] => if c = sep then [[], [c]] else [[c]]
    | h :: t => if c = sep then [] :: h :: t else (c :: h) :: t

/-- JavaScript `s.split(',')`. -/
def jsSplitComma (s : String) : List String :=
  (splitAtSep ',' s.data).map (fun l => ⟨l⟩)

/-- Embedding of the skills parsing shared by `CreateTask.handleSubmit`
(App.js 336) and `ProfileSettings.handleSubmit` (App.js 377):
`text.split(',').map(s => s.trim()).filter(Boolean)`. -/
def parseSkills (s : String) : List String :=
  ((jsSplitComma s).map jsTrim).filter (fun x => x != "")

/-- Embedding of the `onChange` stored value of the duration and credits
fields (App.js 354 and 356): `parseInt(e.target.value) || 30`. -/
def numberFieldOnChange (s : String) : JsNum :=
  jsOrNum (jsParseInt s) (.int 30)

/-! ## Spec-modelled backend: Task Store, Ledger, Lifecycle Engine

The server behind `/api/tasks` is not part of the repository; only the client
calls it.  The definitions of this section are therefore modelled from the
specification (sections 4.1-4.4), which mandates that every lifecycle
operation executes as a single atomic unit: each operation below is one pure
step from state to state that either commits all of its effects or leaves the
state untouched, and concurrent invocations are the serialized interleavings
the specification's compare-and-set requirement guarantees. -/

namespace TimeBank

/-- Task lifecycle states of the specification's state machine. -/
inductive TaskStatus where
  | Open : TaskStatus
  | Assigned : TaskStatus
  | Validated : TaskStatus
  | Cancelled : TaskStatus
deriving DecidableEq, Repr

/-- Modelled from the spec: the Task record of the data model (section 3),
restricted to the fields the lifecycle operations read. -/
structure Task where
  id : Nat
  owner : Nat
  assignee : Option Nat
  title : String
  duration : Int
  credits_offered : Int
  before_photo : Option String
  after_photo : Option String
  status : TaskStatus
deriving DecidableEq, Repr

/-- Error taxonomy of the specification (section 7). -/
inductive LifecycleError where
  | ValidationError : LifecycleError
  | Forbidden : LifecycleError
  | InvalidState : LifecycleError
  | TransferFailed : LifecycleError
  | InsufficientBalance : LifecycleError
  | InvalidAmount : LifecycleError
  | SameAccount : LifecycleError
deriving DecidableEq, Repr

/-- Modelled from the spec: the persisted state (section 6) — tasks keyed by
id and user balances keyed by user id. -/
structure SystemState where
  tasks : List Task
  balances : List (Nat × Int)
deriving DecidableEq, Repr

/-- First task of the store with the given id, if any. -/
def getTask (st : SystemState) (tid : Nat) : Option Task :=
  st.tasks.find? (fun t => t.id == tid)

/-- Status of the task `tid` in `st`, if the task exists. -/
def taskStatus (st : SystemState) (tid : Nat) : Option TaskStatus :=
  (getTask st tid).map (fun t => t.status)

/-- Assignee of the task `tid` in `st`, if the task exists and is assigned. -/
def taskAssignee (st : SystemState) (tid : Nat) : Option Nat :=
  (getTask st tid).bind (fun t => t.assignee)

/-- Replacement of every task with id `tid` by its image under `f`. -/
def updateTask (l : List Task) (tid : Nat) (f : Task → Task) : List Task :=
  l.map (fun u => if u.id == tid then f u else u)

/-- Committed balance of an account (accounts are provisioned with an
explicit entry; a missing entry reads as 0). -/
def lookupBal (bal : List (Nat × Int)) (u : Nat) : Int :=
  ((bal.find? (fun p => p.1 == u)).map (fun p => p.2)).getD 0

/-- Balance of `u` in the system state, the `balance(account)` accessor of
the Ledger contract. -/
def balanceOf (st : SystemState) (u : Nat) : Int :=
  lookupBal st.balances u

/-- Overwriting of the entry of account `u` with value `v`. -/
def setBal (bal : List (Nat × Int)) (u : Nat) (v : Int) : List (Nat × Int) :=
  if bal.any (fun p => p.1 == u) then
    bal.map (fun p => if p.1 == u then (u, v) else p)
  else bal ++ [(u, v)]

/-- Modelled from the spec: `Ledger.transfer(from, to, amount)` (section 4.1).
Fails with `InsufficientBalance` when the source balance is below `amount`,
with `InvalidAmount` when `amount ≤ 0`, with `SameAccount` when the accounts
coincide; otherwise both balances are updated as one atomic unit. -/
def transfer (bal : List (Nat × Int)) (src dst : Nat) (amount : Int) :
    Except LifecycleError (List (Nat × Int)) :=
  if lookupBal bal src < amount then .error .InsufficientBalance
  else if amount ≤ 0 then .error .InvalidAmount
  else if src = dst then .error .SameAccount
  else .ok (setBal (setBal bal src (lookupBal bal src - amount)) dst (lookupBal bal dst + amount))

/-- Modelled from the spec: the Verification Gate `accepts(task)`
(section 4.4) — both photo slots non-empty. -/
def gateAccepts (t : Task) : Bool :=
  jsTruthyOptStr t.before_photo && jsTruthyOptStr t.after_photo

/-- Modelled from the spec: `assign(taskId, actorId)` (section 4.3).
Preconditions: the task exists, `status = open`, the actor is not the owner.
Effect: one atomic step setting `assignee = actorId` and `status = assigned`.
A failed precondition returns the error and the unchanged state, so no
partial update is ever observable. -/
def assign (st : SystemState) (tid actor : Nat) :
    Option LifecycleError × SystemState :=
  match getTask st tid with
  | none => (some .InvalidState, st)
  | some t =>
    if t.status ≠ .Open then (some .InvalidState, st)
    else if actor = t.owner then (some .Forbidden, st)
    else
      (none,
        { st with
          tasks := updateTask st.tasks tid
            (fun u => { u with assignee := some actor, status := .Assigned }) })

/-- Modelled from the spec: `validate(taskId, actorId)` (section 4.3).
Preconditions: `status = assigned`, the actor is the assignee, the
Verification Gate accepts.  Effect, as a single atomic unit: status moves to
`validated` and the Ledger transfers `credits_offered` from the owner to the
assignee; when the transfer fails the whole operation fails with
`TransferFailed` and the state is returned untouched (all-or-nothing). -/
def validate (st : SystemState) (tid actor : Nat) :
    Option LifecycleError × SystemState :=
  match getTask st tid with
  | none => (some .InvalidState, st)
  | some t =>
    if t.status ≠ .Assigned then (some .InvalidState, st)
    else if t.assignee ≠ some actor then (some .Forbidden, st)
    else if ¬ gateAccepts t then (some .InvalidState, st)
    else
      match transfer st.balances t.owner actor t.credits_offered with
      | .error _ => (some .TransferFailed, st)
      | .ok bal =>
        (none,
          { tasks := updateTask st.tasks tid (fun u => { u with status := .Validated }),
            balances := bal })

/-- Field values submitted to `create`. -/
structure CreateFields where
  title : String
  duration : Int
  credits_offered : Int
deriving DecidableEq, Repr

/-- Bounds `create` checks (section 4.2): `duration ∈ [15,60]`,
`credits_offered > 0`, non-empty title. -/
def validFields (f : CreateFields) : Bool :=
  (15 ≤ f.duration && f.duration ≤ 60) && 0 < f.credits_offered && f.title ≠ ""

/-- Task `create` builds on success: fresh id, the submitted fields,
`status = open`, no assignee and no evidence. -/
def newTask (tid owner : Nat) (f : CreateFields) : Task :=
  { id := tid, owner := owner, assignee := none, title := f.title,
    duration := f.duration, credits_offered := f.credits_offered,
    before_photo := none, after_photo := none, status := .Open }

/-- Modelled from the spec: `TaskStore.create(owner, fields)` (section 4.2).
Validates the field bounds; on success appends a fresh task with
`status = open`, on violation fails with `ValidationError` and creates no
task. -/
def create (st : SystemState) (tid owner : Nat) (f : CreateFields) :
    Option LifecycleError × SystemState :=
  if validFields f then
    (none, { st with tasks := st.tasks ++ [newTask tid owner f] })
  else (some .ValidationError, st)

end TimeBank

/-! ## Concrete fixtures used by the witness theorems -/

namespace TimeBank

/-- State with one open task (id 1, owner 10) and three provisioned users. -/
def raceState : SystemState :=
  { tasks := [{ id := 1, owner := 10, assignee := none, title := "Walk my dog",
                duration := 30, credits_offered := 30, before_photo := none,
                after_photo := none, status := .Open }],
    balances := [(10, 100), (20, 60), (30, 60)] }

/-- The open task stored in `raceState`. -/
def raceTask : Task :=
  { id := 1, owner := 10, assignee := none, title := "Walk my dog",
    duration := 30, credits_offered := 30, before_photo := none,
    after_photo := none, status := .Open }

/-- State with an assigned, fully evidenced task whose owner balance (10) is
below the offered credits (30) — Scenario 4 of the specification. -/
def lowBalanceState : SystemState :=
  { tasks := [{ id := 1, owner := 10, assignee := some 20, title := "Walk my dog",
                duration := 30, credits_offered := 30, before_photo := some "b",
                after_photo := some "a", status := .Assigned }],
    balances := [(10, 10), (20, 60)] }

/-- The assigned task stored in `lowBalanceState`. -/
def lowBalanceTask : Task :=
  { id := 1, owner := 10, assignee := some 20, title := "Walk my dog",
    duration := 30, credits_offered := 30, before_photo := some "b",
    after_photo := some "a", status := .Assigned }

/-- Well-formed creation fields. -/
def goodFields : CreateFields :=
  { title := "Walk my dog", duration := 30, credits_offered := 30 }

/-- Creation fields violating every bound. -/
def badFields : CreateFields :=
  { title := "", duration := 100, credits_offered := 0 }

/-- State used by the creation witness. -/
def emptyStoreState : SystemState :=
  { tasks := [], balances := [(10, 60)] }

end TimeBank

/-- Open task created by user `u7`, as the explore listing renders it. -/
def ownTaskCex : ClientTask :=
  { id := "t1", created_by := "u7", assigned_to := none, title := "Walk my dog",
    status := "open", task_type := "request", before_photo := none,
    after_photo := none }

/-- Fetched collection containing no task with id `missing`. -/
def myTasksSample : List ClientTask :=
  [{ id := "t1", created_by := "u7", assigned_to := none, title := "Walk my dog",
     status := "open", task_type := "request", before_photo := none,
     after_photo := none }]

/-! ## Helper lemmas -/

theorem find?_updateTask (l : List TimeBank.Task) (tid : Nat) (t : TimeBank.Task)
    (f : TimeBank.Task → TimeBank.Task) (hid : (f t).id = t.id)
    (h : l.find? (fun u => u.id == tid) = some t) :
    (TimeBank.updateTask l tid f).find? (fun u => u.id == tid) = some (f t) := by
  induction l with
  | nil => simp [List.find?] at h
  | cons a l ih =>
    by_cases ha : a.id = tid
    · have hpa : (a.id == tid) = true := by simpa using ha
      have hat : a = t := by simpa [List.find?, hpa] using h
      subst hat
      simp [TimeBank.updateTask, List.find?, hpa, hid, ha]
    · have hpa : (a.id == tid) = false := by simpa using ha
      have h2 : l.find? (fun u => u.id == tid) = some t := by
        simpa [List.find?, hpa] using h
      simpa [TimeBank.updateTask, List.find?, hpa] using ih h2

theorem head?_dropWhile {α : Type} (p : α → Bool) (l : List α) (c : α)
    (h : (l.dropWhile p).head? = some c) : p c = false := by
  induction l with
  | nil => simp [List.dropWhile] at h
  | cons a l ih =>
    by_cases hpa : p a
    · exact ih (by simpa [List.dropWhile, hpa] using h)
    · have : a = c := by simpa [List.dropWhile, hpa] using h
      subst this
      simpa using hpa

theorem getLast?_dropWhile {α : Type} (p : α → Bool) (l : List α) (c : α)
    (h : (l.dropWhile p).getLast? = some c) : l.getLast? = some c := by
  induction l with
  | nil => simp [List.dropWhile] at h
  | cons a l ih =>
    by_cases hpa : p a
    · have h2 : l.getLast? = some c := ih (by simpa [List.dropWhile, hpa] using h)
      cases l with
      | nil => simp at h2
      | cons b m => simpa [List.getLast?_cons_cons] using h2
    · simpa [List.dropWhile, hpa] using h

theorem jsTrim_head_not_whitespace (s : String) (c : Char)
    (h : (jsTrim s).data.head? = some c) : c.isWhitespace = false := by
  have h2 : (((s.data.dropWhile Char.isWhitespace).reverse.dropWhile
      Char.isWhitespace).reverse).head? = some c := h
  rw [List.head?_reverse] at h2
  have h3 := getLast?_dropWhile Char.isWhitespace _ _ h2
  rw [List.getLast?_reverse] at h3
  exact head?_dropWhile Char.isWhitespace _ _ h3

theorem jsTrim_getLast_not_whitespace (s : String) (c : Char)
    (h : (jsTrim s).data.getLast? = some c) : c.isWhitespace = false := by
  have h2 : (((s.data.dropWhile Char.isWhitespace).reverse.dropWhile
      Char.isWhitespace).reverse).getLast? = some c := h
  rw [List.getLast?_reverse] at h2
  exact head?_dropWhile Char.isWhitespace _ _ h2

/-! ## Claim theorems -/

namespace TimeBank

/-- C1: for every open task, under the serialized interleavings mandated by
the specification's compare-and-set requirement, whichever of the two racing
actors executes first succeeds and becomes the sole assignee; the other call
returns `InvalidState` and leaves the state untouched, so no state with two
assignees or a torn partial update is ever observable. -/
theorem assign_race_exactly_one_winner
    (st : SystemState) (tid x y : Nat) (t : Task)
    (ht : getTask st tid = some t) (hs : t.status = .Open)
    (hx : x ≠ t.owner) (_hy : y ≠ t.owner) :
    (assign st tid x).1 = none ∧
    taskStatus (assign st tid x).2 tid = some .Assigned ∧
    taskAssignee (assign st tid x).2 tid = some x ∧
    (assign (assign st tid x).2 tid y).1 = some .InvalidState ∧
    (assign (assign st tid x).2 tid y).2 = (assign st tid x).2 := by
  have h1 : assign st tid x = (none,
      { st with tasks := updateTask st.tasks tid (fun u => { u with assignee := some x, status := .Assigned }) }) := by
    simp [assign, ht, hs, hx]
  have hfind : st.tasks.find? (fun u => u.id == tid) = some t := ht
  have h2 : getTask (assign st tid x).2 tid =
      some { t with assignee := some x, status := .Assigned } := by
    rw [h1]
    exact find?_updateTask st.tasks tid t _ rfl hfind
  have hstep : ∀ (s : SystemState) (u : Task), getTask s tid = some u →
      u.status = .Assigned → assign s tid y = (some .InvalidState, s) := by
    intro s u hu hsu
    simp [assign, hu, hsu]
  have h3 : assign (assign st tid x).2 tid y = (some .InvalidState, (assign st tid x).2) :=
    hstep _ _ h2 rfl
  refine ⟨by rw [h1], ?_, ?_, ?_, ?_⟩
  · simp [taskStatus, h2]
  · simp [taskAssignee, h2]
  · rw [h3]
  · rw [h3]

/-- C1 witness: in `raceState`, actor 20 assigns first and wins; actor 30's
racing call fails with `InvalidState` and changes nothing. -/
theorem assign_race_exactly_one_winner_witness :
    (assign raceState 1 20).1 = none ∧
    taskStatus (assign raceState 1 20).2 1 = some .Assigned ∧
    taskAssignee (assign raceState 1 20).2 1 = some 20 ∧
    (assign (assign raceState 1 20).2 1 30).1 = some .InvalidState ∧
    (assign (assign raceState 1 20).2 1 30).2 = (assign raceState 1 20).2 :=
  assign_race_exactly_one_winner raceState 1 20 30 raceTask (by decide)
    (by decide) (by decide) (by decide)

/-- C2: when a task is assigned to the calling actor, the evidence gate
accepts, and the owner's balance is below `credits_offered`, `validate` fails
with `TransferFailed`, the task status is still `assigned` afterwards, and
every balance equals its value before the call — the status change and the
transfer commit together or not at all. -/
theorem validate_transfer_failure_is_atomic
    (st : SystemState) (tid actor : Nat) (t : Task)
    (ht : getTask st tid = some t) (hs : t.status = .Assigned)
    (ha : t.assignee = some actor) (hg : gateAccepts t = true)
    (hb : balanceOf st t.owner < t.credits_offered) :
    validate st tid actor = (some .TransferFailed, st) ∧
    taskStatus (validate st tid actor).2 tid = some .Assigned ∧
    (∀ u, balanceOf (validate st tid actor).2 u = balanceOf st u) := by
  have hbal : lookupBal st.balances t.owner < t.credits_offered := hb
  have h1 : validate st tid actor = (some .TransferFailed, st) := by
    simp [validate, ht, hs, ha, hg, transfer, hbal]
  refine ⟨h1, ?_, ?_⟩
  · rw [h1]
    simp [taskStatus, ht, hs]
  · intro u
    rw [h1]

/-- C2 witness: in `lowBalanceState` (owner balance 10, credits 30) the
assignee's `validate` fails with `TransferFailed` and the state is intact. -/
theorem validate_transfer_failure_is_atomic_witness :
    validate lowBalanceState 1 20 = (some .TransferFailed, lowBalanceState) ∧
    taskStatus (validate lowBalanceState 1 20).2 1 = some .Assigned ∧
    (∀ u, balanceOf (validate lowBalanceState 1 20).2 u = balanceOf lowBalanceState u) :=
  validate_transfer_failure_is_atomic lowBalanceState 1 20 lowBalanceTask
    (by decide) (by decide) (by decide) (by decide) (by decide)

/-- C5: `create` validates its bounds — with `duration ∈ [15,60]`, positive
`credits_offered` and a non-empty title it appends a fresh task with
`status = open`; when any bound is violated it fails with `ValidationError`
and the task list is unchanged. -/
theorem create_validates_bounds
    (st : SystemState) (tid owner : Nat) (f : CreateFields) :
    (validFields f = true →
      create st tid owner f =
        (none, { st with tasks := st.tasks ++ [newTask tid owner f] }) ∧
      (15 ≤ f.duration ∧ f.duration ≤ 60 ∧ 0 < f.credits_offered ∧ f.title ≠ "") ∧
      (newTask tid owner f).status = .Open) ∧
    (validFields f = false →
      create st tid owner f = (some .ValidationError, st)) := by
  constructor
  · intro h
    have hb : ((15 ≤ f.duration ∧ f.duration ≤ 60) ∧ 0 < f.credits_offered) ∧
        f.title ≠ "" := by simpa [validFields] using h
    exact ⟨by simp [create, h], ⟨hb.1.1.1, hb.1.1.2, hb.1.2, hb.2⟩, rfl⟩
  · intro h
    simp [create, h]

/-- C5 witness: valid fields create an open task in `emptyStoreState`; fields
violating the bounds are rejected with `ValidationError` and no task. -/
theorem create_validates_bounds_witness :
    validFields goodFields = true ∧
    create emptyStoreState 1 10 goodFields =
      (none, { emptyStoreState with
               tasks := emptyStoreState.tasks ++ [newTask 1 10 goodFields] }) ∧
    validFields badFields = false ∧
    create emptyStoreState 2 10 badFields = (some .ValidationError, emptyStoreState) :=
  ⟨by decide,
   ((create_validates_bounds emptyStoreState 1 10 goodFields).1 (by decide)).1,
   by decide,
   (create_validates_bounds emptyStoreState 2 10 badFields).2 (by decide)⟩

end TimeBank

/-- C3: `handleValidation` issues the validate request exactly when both
photo references are truthy (present and non-empty); whenever either is
missing it stops at the warning toast, before any call, and the Complete
Task button is disabled — so validation is never attempted with only
`before_photo` set. -/
theorem handleValidation_requires_both_photos (t : ClientTask) (tid : String) :
    (handleValidation t tid = .request (.postValidate tid) ↔
      (jsTruthyOptStr t.before_photo = true ∧ jsTruthyOptStr t.after_photo = true)) ∧
    (handleValidation t tid = .warnMissing ↔ completeTaskDisabled t = true) ∧
    (completeTaskDisabled t = true ↔
      ¬ (jsTruthyOptStr t.before_photo = true ∧ jsTruthyOptStr t.after_photo = true)) := by
  by_cases hb : jsTruthyOptStr t.before_photo <;>
    by_cases ha : jsTruthyOptStr t.after_photo <;>
    simp [handleValidation, completeTaskDisabled, hb, ha]

/-- C4 counterexample: the open task `ownTaskCex` is created by the current
user `u7`, yet `TaskCard` renders the Accept Task button for it and a click
would post the assign request — refuting the claim that the client never
offers the action on the user's own task. -/
theorem taskCard_offers_accept_on_own_task :
    ownTaskCex.created_by = "u7" ∧ acceptButtonShown ownTaskCex = true ∧
    handleAssignRequest ownTaskCex = .postAssign "t1" :=
  ⟨rfl, rfl, rfl⟩

/-- C4 amended: `TaskCard` decides the Accept Task action from the status
field alone — the action is offered iff `task.status` is `'open'`, the
decision is independent of `created_by` (the component receives no current
user to compare against), and a click posts the assign request for the
task's id unconditionally. -/
theorem taskCard_accept_depends_only_on_status (t : ClientTask) (u : String) :
    (acceptButtonShown t = true ↔ t.status = "open") ∧
    acceptButtonShown { t with created_by := u } = acceptButtonShown t ∧
    handleAssignRequest t = .postAssign t.id := by
  refine ⟨?_, rfl, rfl⟩
  simp [acceptButtonShown]

/-- C6: both filter objects `BrowseTasks` passes to `loadTasks` carry no
`status` key, so after the spread `{ status: 'open', ...filters }` (and the
possible `taskType` deletion) the outgoing task-list request always carries
`status = 'open'`. -/
theorem explore_requests_carry_status_open (term sel : String) :
    objGet (browseEffectFilters term sel) "status" = none ∧
    objGet (loadTasksParams (browseEffectFilters term sel)) "status" = some "open" ∧
    objGet (browseAssignRefreshFilters term sel) "status" = none ∧
    objGet (loadTasksParams (browseAssignRefreshFilters term sel)) "status" = some "open" := by
  refine ⟨by simp [browseEffectFilters, objGet], ?_, by simp [browseAssignRefreshFilters, objGet], ?_⟩
  · simp [loadTasksParams, browseEffectFilters, objGet, objDelete]
  · by_cases hsel : sel = "all" <;>
      simp [loadTasksParams, browseAssignRefreshFilters, objGet, objDelete, hsel]

/-- C7: `fetchTask` issues only `GET /tasks/my` — never a get-by-id request —
then selects the element of the fetched collection whose id equals the route
parameter; when no element matches, the outcome is the not-found toast and a
navigation to the my-tasks page. -/
theorem taskDetail_fetches_collection_and_selects
    (taskId : String) (data : List ClientTask) :
    fetchTaskRequests taskId = [.getTasksMy] ∧
    (∀ rid, HttpRequest.getTaskById rid ∉ fetchTaskRequests taskId) ∧
    (∀ t, fetchTaskOutcome data taskId = .found t → t ∈ data ∧ t.id = taskId) ∧
    ((∀ t ∈ data, t.id ≠ taskId) →
      fetchTaskOutcome data taskId = .notFound "/dashboard/my-tasks") := by
  refine ⟨rfl, by simp [fetchTaskRequests], ?_, ?_⟩
  · intro t h
    unfold fetchTaskOutcome at h
    cases hf : data.find? (fun u => u.id == taskId) with
    | none => rw [hf] at h; exact absurd h (by simp)
    | some u =>
      rw [hf] at h
      have hut : u = t := by simpa using h
      subst hut
      exact ⟨List.mem_of_find?_eq_some hf, by simpa using List.find?_some hf⟩
  · intro hall
    unfold fetchTaskOutcome
    have hf : data.find? (fun u => u.id == taskId) = none := by
      rw [List.find?_eq_none]
      intro t ht
      simpa using hall t ht
    rw [hf]

/-- C7 witness: fetching with route id `t2` against a collection holding only
`t1` reports not-found and navigates to the my-tasks page. -/
theorem taskDetail_fetches_collection_and_selects_witness :
    fetchTaskOutcome myTasksSample "t2" = .notFound "/dashboard/my-tasks" :=
  (taskDetail_fetches_collection_and_selects "t2" myTasksSample).2.2.2 (by decide)

/-- C8: every element of the submitted skills collection — the comma
components of the entered text, trimmed and with empty components removed —
is a non-empty string that neither starts nor ends with whitespace. -/
theorem parseSkills_elements_trimmed_nonempty (s x : String)
    (hx : x ∈ parseSkills s) :
    x ≠ "" ∧
    (∀ c, x.data.head? = some c → c.isWhitespace = false) ∧
    (∀ c, x.data.getLast? = some c → c.isWhitespace = false) := by
  unfold parseSkills at hx
  have hmem := List.mem_filter.mp hx
  have hne : x ≠ "" := by simpa using hmem.2
  obtain ⟨y, _, hy⟩ := List.mem_map.mp hmem.1
  subst hy
  exact ⟨hne, fun c hc => jsTrim_head_not_whitespace y c hc,
    fun c hc => jsTrim_getLast_not_whitespace y c hc⟩

/-- C8 witness: parsing `" a , ,b "` yields `["a", "b"]`; its element `"a"`
is non-empty and has no whitespace at either end. -/
theorem parseSkills_elements_trimmed_nonempty_witness :
    parseSkills " a , ,b " = ["a", "b"] ∧
    ("a" ≠ "" ∧
      (∀ c, "a".data.head? = some c → c.isWhitespace = false) ∧
      (∀ c, "a".data.getLast? = some c → c.isWhitespace = false)) :=
  ⟨by decide, parseSkills_elements_trimmed_nonempty " a , ,b " "a" (by decide)⟩

/-- C9: the debounced explore effect supplies the type selection under the
key `task_type`, so the `taskType` deletion in `loadTasks` never applies:
the built params are passed through unchanged and the request carries
`task_type` equal to the selected value verbatim — for the All Types
selection the literal string `'all'` is sent instead of the constraint being
omitted. -/
theorem browse_sends_selected_type_verbatim (term sel : String) :
    loadTasksParams (browseEffectFilters term sel) =
      [("status", "open"), ("title", term), ("task_type", sel)] ∧
    objGet (loadTasksParams (browseEffectFilters term sel)) "task_type" = some sel ∧
    objGet (loadTasksParams (browseEffectFilters term "all")) "task_type" = some "all" := by
  refine ⟨?_, ?_, ?_⟩ <;>
    simp [loadTasksParams, browseEffectFilters, objGet, objDelete]

/-- C10: the stored value of the duration and credits fields is
`parseInt(text)` when that parse yields a nonzero integer, and 30 otherwise —
empty, non-numeric and `'0'` inputs all silently become 30, while any other
parsed integer (such as 100, outside the duration bounds [15,60]) is stored
unclamped. -/
theorem numberField_stores_parseInt_or_default (s : String) :
    (jsParseInt s = .nan → numberFieldOnChange s = .int 30) ∧
    (jsParseInt s = .int 0 → numberFieldOnChange s = .int 30) ∧
    (∀ n : Int, jsParseInt s = .int n → n ≠ 0 → numberFieldOnChange s = .int n) ∧
    numberFieldOnChange "" = .int 30 ∧
    numberFieldOnChange "abc" = .int 30 ∧
    numberFieldOnChange "0" = .int 30 ∧
    numberFieldOnChange "100" = .int 100 := by
  refine ⟨?_, ?_, ?_, by decide, by decide, by decide, by decide⟩
  · intro h
    simp [numberFieldOnChange, jsOrNum, jsFalsyNum, h]
  · intro h
    simp [numberFieldOnChange, jsOrNum, jsFalsyNum, h]
  · intro n h hn
    simp [numberFieldOnChange, jsOrNum, jsFalsyNum, h, hn]

/-- C10 witness: the out-of-bounds entry `"100"` parses to 100 and is stored
unclamped. -/
theorem numberField_stores_parseInt_or_default_witness :
    jsParseInt "100" = .int 100 ∧ (100 : Int) ≠ 0 ∧
    numberFieldOnChange "100" = .int 100 :=
  ⟨by decide, by decide,
    (numberField_stores_parseInt_or_default "100").2.2.1 100 (by decide) (by decide)⟩
